import Mathlib

/-!
# Verification of the library catalog manager (`library.py`)

A shallow embedding of the record store of `library.py`: the `Book` and
`Store` data model, the CRUD and lending operations, and the persistence
codec.  Python dictionaries holding book records become a `Book` structure;
the `db` dictionary becomes a `Store`.  The opaque "current time string"
provider `now()` becomes an explicit `String` parameter (one parameter per
textual call site, since distinct calls may return distinct strings).
Console printing is dropped; each action's observable outcome (the typed
failure it reports or the mutated store it persists) is returned as an
`Except` value.  Every failure path of the Python code returns before any
mutation of `db`, so an `Except.error` result faithfully corresponds to a
run that leaves the store untouched.
-/

/-- One catalog entry, mirroring the book dictionary built in `add_book`. -/
structure Book where
  id : Nat
  title : String
  author : String
  year : String
  available : Bool
  borrower : String
  borrowed_at : String
  returned_at : String
  created_at : String
  updated_at : String
deriving DecidableEq

/-- The aggregate `db` dictionary: list of books plus the id counter. -/
structure Store where
  books : List Book
  next_id : Nat
deriving DecidableEq

/-- The fresh store `{"books": [], "next_id": 1}` that `load_db` returns
when the backing file does not exist. -/
def freshStore : Store := { books := [], next_id := 1 }

/-- The typed failures the actions report back (as printed messages in the
CLI).  `load_db` has no typed failure of its own: on unparsable input the
Python `json.load` raises an uncaught exception (see `LoadResult`). -/
inductive Err where
  | validationError
  | notFound
  | alreadyBorrowed (current : String)
  | alreadyAvailable
deriving DecidableEq

/-- ASCII model of the whitespace characters Python's `int(str)` strips. -/
def isPyWS (c : Char) : Bool :=
  c = ' ' || c = '\t' || c = '\n' || c = '\r' || c = '\x0b' || c = '\x0c'

/-- Strip leading and trailing whitespace, as `int(str)` does. -/
def stripWS (l : List Char) : List Char :=
  ((l.dropWhile isPyWS).reverse.dropWhile isPyWS).reverse

/-- Tail of a digit run: digits, with single underscores only between
digits (Python 3 literal grouping). -/
def digitsTail : List Char → Bool
  | [] => true
  | '_' :: c :: r => c.isDigit && digitsTail r
  | c :: r => c.isDigit && digitsTail r

/-- A non-empty digit run with legal underscore grouping. -/
def digitsBody : List Char → Bool
  | [] => false
  | c :: r => c.isDigit && digitsTail r

/-- ASCII model of Python's `int(s)` succeeding on a string: optional
surrounding whitespace, optional sign, then a non-empty digit run with
single underscores between digits.  This is what `add_book`'s
`try: int(year) except ValueError` accepts. -/
def pyIntValid (s : String) : Bool :=
  match stripWS s.data with
  | '+' :: r => digitsBody r
  | '-' :: r => digitsBody r
  | r => digitsBody r

/-- ASCII model of Python's `str.isdigit()`: non-empty and all characters
are digits.  Note it rejects a leading sign or surrounding whitespace,
unlike `int(s)`. -/
def pyIsDigit (s : String) : Bool :=
  !s.isEmpty && s.data.all Char.isDigit

/-- `find_by_id`: the first book in the collection with the given id. -/
def find_by_id (db : Store) (bid : Nat) : Option Book :=
  db.books.find? (fun b => b.id = bid)

/-- Replace the first element satisfying `·.id = bid` by its image under
`f`, leaving the rest alone.  Models Python's in-place mutation of the
dictionary object returned by `find_by_id` (the first match). -/
def replaceFirst (bid : Nat) (f : Book → Book) : List Book → List Book
  | [] => []
  | b :: rest => if b.id = bid then f b :: rest else b :: replaceFirst bid f rest

/-- `add_book`: validates the three fields (all required, year accepted by
`int`), then assigns `id = next_id` (bumping the counter, as the `next_id`
helper does), appends the new record and persists.  Both validation checks
happen before `next_id(db)` runs, so the failure paths leave `db` untouched. -/
def add_book (db : Store) (title author year : String) (tsC tsU : String) :
    Except Err (Book × Store) :=
  if title = "" ∨ author = "" ∨ year = "" then .error .validationError
  else if pyIntValid year = false then .error .validationError
  else
    let book : Book :=
      { id := db.next_id, title := title, author := author, year := year,
        available := true, borrower := "", borrowed_at := "", returned_at := "",
        created_at := tsC, updated_at := tsU }
    .ok (book, { books := db.books ++ [book], next_id := db.next_id + 1 })

/-- ASCII model of Python's `str.lower()`: lowercase each character. -/
def pyLower (s : String) : String :=
  ⟨s.data.map Char.toLower⟩

/-- Model of Python's `sub in s` on strings (as character lists): `needle`
occurs contiguously in `hay`. -/
def containsSub (needle : List Char) : List Char → Bool
  | [] => needle.isEmpty
  | c :: rest => needle.isPrefixOf (c :: rest) || containsSub needle rest

/-- The keyword match of `search_books` for an already-lowercased keyword
`q`: substring test `q in b["title"].lower() or q in b["author"].lower()`. -/
def matchesKeyword (q : String) (b : Book) : Bool :=
  containsSub q.data (pyLower b.title).data ||
    containsSub q.data (pyLower b.author).data

/-- `search_books`: lowercases the keyword, rejects it when empty, and
otherwise filters the collection in place (natural order, no sort). -/
def search_books (db : Store) (keyword : String) : Except Err (List Book) :=
  let q := pyLower keyword
  if q = "" then .error .validationError
  else .ok (db.books.filter (fun b => matchesKeyword q b))

/-- `update_book` after the id has been located: each empty input falls
back to the current value (`prompt(...) or b[...]`), then the resulting
year is checked with `isdigit()` before any field is written. -/
def update_book (db : Store) (bid : Nat) (newTitle newAuthor newYear ts : String) :
    Except Err Store :=
  match find_by_id db bid with
  | none => .error .notFound
  | some b =>
    let nt := if newTitle = "" then b.title else newTitle
    let na := if newAuthor = "" then b.author else newAuthor
    let ny := if newYear = "" then b.year else newYear
    if ny ≠ "" ∧ pyIsDigit ny = false then .error .validationError
    else .ok { db with
      books := replaceFirst bid
        (fun _ => { b with title := nt, author := na, year := ny, updated_at := ts })
        db.books }

/-- `delete_book`: removes every record with the given id; reports
`notFound` when nothing was removed (the rebuilt equal list is then not
persisted, so the observable store is unchanged). -/
def delete_book (db : Store) (bid : Nat) : Except Err Store :=
  let remaining := db.books.filter (fun b => b.id ≠ bid)
  if remaining.length < db.books.length then .ok { db with books := remaining }
  else .error .notFound

/-- `borrow_book`: checks, in order, that the id exists, that the book is
available (else `alreadyBorrowed` with the current borrower), and that the
borrower name is non-empty; then flips the lending fields. -/
def borrow_book (db : Store) (bid : Nat) (borrower : String) (tsB tsU : String) :
    Except Err Store :=
  match find_by_id db bid with
  | none => .error .notFound
  | some b =>
    if b.available = false then .error (.alreadyBorrowed b.borrower)
    else if borrower = "" then .error .validationError
    else .ok { db with
      books := replaceFirst bid
        (fun b0 => { b0 with
            available := false
            borrower := borrower
            borrowed_at := tsB
            returned_at := ""
            updated_at := tsU })
        db.books }

/-- `return_book`: checks that the id exists and the book is currently
borrowed (else `alreadyAvailable`); then restores availability. -/
def return_book (db : Store) (bid : Nat) (tsR tsU : String) : Except Err Store :=
  match find_by_id db bid with
  | none => .error .notFound
  | some b =>
    if b.available = true then .error .alreadyAvailable
    else .ok { db with
      books := replaceFirst bid
        (fun b0 => { b0 with
            available := true
            returned_at := tsR
            borrower := ""
            updated_at := tsU })
        db.books }

/-- The store an action leaves behind: the new store on success, the old
one on a failure path (every Python failure path returns before mutating). -/
def runOp (s : Store) (r : Except Err Store) : Store :=
  match r with
  | .ok s' => s'
  | .error _ => s

/-- Same, for `add_book` whose success also carries the new book. -/
def runAdd (s : Store) (r : Except Err (Book × Store)) : Store :=
  match r with
  | .ok p => p.2
  | .error _ => s

/-! ## Persistence codec

`save_db` runs `json.dump(db, f)` and `load_db` runs `json.load(f)` when
`library.json` exists.  We model the file contents at the level of the
parsed JSON value: a well-formed file is the `Json` value that `json.load`
would produce, and `json.dump` followed by `json.load` reproduces that
value exactly. -/

/-- JSON-like structured values: the parse results of `json.load` and the
inputs of `json.dump`. -/
inductive Json where
  | null
  | bool (b : Bool)
  | num (n : Int)
  | str (s : String)
  | arr (elems : List Json)
  | obj (fields : List (String × Json))

/-- A numeric JSON value as a `Nat` (ids and the counter are non-negative
integers). -/
def jNat : Json → Option Nat
  | .num (Int.ofNat n) => some n
  | _ => none

/-- A string JSON value. -/
def jStr : Json → Option String
  | .str s => some s
  | _ => none

/-- A boolean JSON value. -/
def jBool : Json → Option Bool
  | .bool b => some b
  | _ => none

/-- Dictionary key access (`d[k]`), `none` when the key is absent. -/
def lookupField (fields : List (String × Json)) (k : String) : Option Json :=
  (fields.find? (fun kv => kv.1 = k)).map (fun kv => kv.2)

/-- The JSON shape of one book record, with exactly the keys `add_book`
writes. -/
def encodeBook (b : Book) : Json :=
  .obj [("id", .num (Int.ofNat b.id)), ("title", .str b.title),
        ("author", .str b.author), ("year", .str b.year),
        ("available", .bool b.available), ("borrower", .str b.borrower),
        ("borrowed_at", .str b.borrowed_at), ("returned_at", .str b.returned_at),
        ("created_at", .str b.created_at), ("updated_at", .str b.updated_at)]

/-- The JSON shape of the whole store: `{"books": [...], "next_id": n}`. -/
def encodeStore (s : Store) : Json :=
  .obj [("books", .arr (s.books.map encodeBook)),
        ("next_id", .num (Int.ofNat s.next_id))]

/-- Read one book record back from its JSON form, following the field
accesses the program performs (`b["id"]`, `b["title"]`, ...).  `none` when
a required field is missing or has the wrong shape. -/
def decodeBook : Json → Option Book
  | .obj fields => do
    let id ← (lookupField fields "id").bind jNat
    let title ← (lookupField fields "title").bind jStr
    let author ← (lookupField fields "author").bind jStr
    let year ← (lookupField fields "year").bind jStr
    let available ← (lookupField fields "available").bind jBool
    let borrower ← (lookupField fields "borrower").bind jStr
    let borrowed_at ← (lookupField fields "borrowed_at").bind jStr
    let returned_at ← (lookupField fields "returned_at").bind jStr
    let created_at ← (lookupField fields "created_at").bind jStr
    let updated_at ← (lookupField fields "updated_at").bind jStr
    some { id := id, title := title, author := author, year := year,
           available := available, borrower := borrower,
           borrowed_at := borrowed_at, returned_at := returned_at,
           created_at := created_at, updated_at := updated_at }
  | _ => none

/-- Read a list of book records. -/
def decodeBooks : List Json → Option (List Book)
  | [] => some []
  | j :: rest => do
    let b ← decodeBook j
    let bs ← decodeBooks rest
    some (b :: bs)

/-- Read a whole store document, following the accesses `db["books"]` and
`db["next_id"]`.  `none` when a required top-level field is missing or has
the wrong shape. -/
def decodeStore : Json → Option Store
  | .obj fields => do
    let jb ← lookupField fields "books"
    let bs ← (match jb with | .arr elems => decodeBooks elems | _ => none)
    let nid ← (lookupField fields "next_id").bind jNat
    some { books := bs, next_id := nid }
  | _ => none

/-- The backing file `library.json` as the codec sees it: absent, present
but not parseable as JSON, or present with parsed content `j`. -/
inductive FileState where
  | absent
  | invalid
  | parsed (j : Json)

/-- Outcome of `load_db`: either the dictionary it returns, or the
uncaught exception that `json.load` raises on unparsable input.  `load_db`
wraps `json.load` in no `try`/`except`, so that exception propagates and
terminates the process; the function has no typed corrupt-store outcome. -/
inductive LoadResult where
  | ok (j : Json)
  | exception

/-- `load_db`, paired with the file state it leaves behind (it never
writes).  Absent file: the fresh dictionary `{"books": [], "next_id": 1}`.
Unparsable file: the uncaught `json.load` exception.  Parsable file: the
parsed document as-is — no validation of its top-level fields is
performed. -/
def load_db : FileState → LoadResult × FileState
  | .absent => (.ok (encodeStore freshStore), .absent)
  | .invalid => (.exception, .invalid)
  | .parsed j => (.ok j, .parsed j)

/-- `save_db`: serializes the document wholesale; a later `json.load`
parses the written text back to the same value. -/
def save_db (j : Json) : FileState := .parsed j

/-! ## Reachable stores

A step is one successful mutating action of the menu loop (`add_book`,
`update_book`, `delete_book`, `borrow_book`, `return_book`) with arbitrary
inputs.  Every failure path of these actions returns before mutating the
store (`runOp`/`runAdd` give back the old store), so failed actions need
no step of their own. -/

/-- One successful mutating action. -/
inductive Step : Store → Store → Prop where
  | add {s : Store} {t a y tsC tsU : String} {b : Book} {s' : Store} :
      add_book s t a y tsC tsU = .ok (b, s') → Step s s'
  | update {s : Store} {bid : Nat} {nt na ny ts : String} {s' : Store} :
      update_book s bid nt na ny ts = .ok s' → Step s s'
  | del {s : Store} {bid : Nat} {s' : Store} :
      delete_book s bid = .ok s' → Step s s'
  | borrow {s : Store} {bid : Nat} {name tsB tsU : String} {s' : Store} :
      borrow_book s bid name tsB tsU = .ok s' → Step s s'
  | ret {s : Store} {bid : Nat} {tsR tsU : String} {s' : Store} :
      return_book s bid tsR tsU = .ok s' → Step s s'

/-- Zero or more successful actions. -/
def Steps : Store → Store → Prop := Relation.ReflTransGen Step

/-- The states reachable from a fresh store. -/
def Reachable (s : Store) : Prop := Steps freshStore s

/-! ## Inversion lemmas: what a successful action tells us -/

/-- Successful `add_book`: the inputs were valid, the new book is the
record literal with `id = next_id`, and the store gained that book with a
bumped counter. -/
theorem add_book_ok {s : Store} {t a y tsC tsU : String} {b : Book} {s' : Store}
    (h : add_book s t a y tsC tsU = .ok (b, s')) :
    t ≠ "" ∧ a ≠ "" ∧ pyIntValid y = true ∧
    b = { id := s.next_id, title := t, author := a, year := y, available := true,
          borrower := "", borrowed_at := "", returned_at := "",
          created_at := tsC, updated_at := tsU } ∧
    s' = { books := s.books ++ [b], next_id := s.next_id + 1 } := by
  unfold add_book at h
  split at h
  · cases h
  · split at h
    · cases h
    · rename_i h1 h2
      push_neg at h1
      obtain ⟨ht, ha, hy⟩ := h1
      simp only [Except.ok.injEq, Prod.mk.injEq] at h
      obtain ⟨hb, hs⟩ := h
      subst hb
      subst hs
      refine ⟨ht, ha, ?_, rfl, rfl⟩
      simpa using h2

/-- `update_book` once the id has been located, with the fallback values
written out. -/
theorem update_book_found (s : Store) (bid : Nat) (nt na ny ts : String) (b : Book)
    (hf : find_by_id s bid = some b) :
    update_book s bid nt na ny ts =
      if (if ny = "" then b.year else ny) ≠ "" ∧
          pyIsDigit (if ny = "" then b.year else ny) = false
      then .error .validationError
      else .ok { s with
        books := replaceFirst bid
            (fun _ => { b with
                title := if nt = "" then b.title else nt
                author := if na = "" then b.author else na
                year := if ny = "" then b.year else ny
                updated_at := ts })
            s.books } := by
  unfold update_book
  rw [hf]

/-- Successful `update_book`: the id was found and the store's books were
rewritten at the first match using the fallback values. -/
theorem update_book_ok {s : Store} {bid : Nat} {nt na ny ts : String} {s' : Store}
    (h : update_book s bid nt na ny ts = .ok s') :
    ∃ b, find_by_id s bid = some b ∧
      s' = { s with
        books := replaceFirst bid
            (fun _ => { b with
                title := if nt = "" then b.title else nt
                author := if na = "" then b.author else na
                year := if ny = "" then b.year else ny
                updated_at := ts })
            s.books } := by
  cases hf : find_by_id s bid with
  | none => unfold update_book at h; rw [hf] at h; cases h
  | some b =>
    rw [update_book_found s bid nt na ny ts b hf] at h
    by_cases hc : (if ny = "" then b.year else ny) ≠ "" ∧
        pyIsDigit (if ny = "" then b.year else ny) = false
    · rw [if_pos hc] at h; cases h
    · rw [if_neg hc] at h
      cases h
      exact ⟨b, rfl, rfl⟩

/-- Successful `delete_book`: at least one record matched and the books
with that id were removed; the counter is untouched. -/
theorem delete_book_ok {s : Store} {bid : Nat} {s' : Store}
    (h : delete_book s bid = .ok s') :
    s' = { s with books := s.books.filter (fun b => b.id ≠ bid) } ∧
      (s.books.filter (fun b => b.id ≠ bid)).length < s.books.length := by
  simp only [delete_book] at h
  split at h
  · rename_i hlt
    simp only [Except.ok.injEq] at h
    exact ⟨h.symm, hlt⟩
  · cases h

/-- `borrow_book` once the id has been located. -/
theorem borrow_book_found (s : Store) (bid : Nat) (name tsB tsU : String) (b : Book)
    (hf : find_by_id s bid = some b) :
    borrow_book s bid name tsB tsU =
      if b.available = false then .error (.alreadyBorrowed b.borrower)
      else if name = "" then .error .validationError
      else .ok { s with
        books := replaceFirst bid
            (fun b0 => { b0 with
                available := false
                borrower := name
                borrowed_at := tsB
                returned_at := ""
                updated_at := tsU })
            s.books } := by
  unfold borrow_book
  rw [hf]

/-- Successful `borrow_book`: the id was found on an available book, the
name was non-empty, and the first match had its lending fields flipped. -/
theorem borrow_book_ok {s : Store} {bid : Nat} {name tsB tsU : String} {s' : Store}
    (h : borrow_book s bid name tsB tsU = .ok s') :
    ∃ b, find_by_id s bid = some b ∧ b.available = true ∧ name ≠ "" ∧
      s' = { s with
        books := replaceFirst bid
            (fun b0 => { b0 with
                available := false
                borrower := name
                borrowed_at := tsB
                returned_at := ""
                updated_at := tsU })
            s.books } := by
  cases hf : find_by_id s bid with
  | none => unfold borrow_book at h; rw [hf] at h; cases h
  | some b =>
    rw [borrow_book_found s bid name tsB tsU b hf] at h
    by_cases hav : b.available = false
    · rw [if_pos hav] at h; cases h
    · rw [if_neg hav] at h
      by_cases hname : name = ""
      · rw [if_pos hname] at h; cases h
      · rw [if_neg hname] at h
        cases h
        exact ⟨b, rfl, by simpa using hav, hname, rfl⟩

/-- `return_book` once the id has been located. -/
theorem return_book_found (s : Store) (bid : Nat) (tsR tsU : String) (b : Book)
    (hf : find_by_id s bid = some b) :
    return_book s bid tsR tsU =
      if b.available = true then .error .alreadyAvailable
      else .ok { s with
        books := replaceFirst bid
            (fun b0 => { b0 with
                available := true
                returned_at := tsR
                borrower := ""
                updated_at := tsU })
            s.books } := by
  unfold return_book
  rw [hf]

/-- Successful `return_book`: the id was found on a borrowed book and the
first match was restored to available. -/
theorem return_book_ok {s : Store} {bid : Nat} {tsR tsU : String} {s' : Store}
    (h : return_book s bid tsR tsU = .ok s') :
    ∃ b, find_by_id s bid = some b ∧ b.available = false ∧
      s' = { s with
        books := replaceFirst bid
            (fun b0 => { b0 with
                available := true
                returned_at := tsR
                borrower := ""
                updated_at := tsU })
            s.books } := by
  cases hf : find_by_id s bid with
  | none => unfold return_book at h; rw [hf] at h; cases h
  | some b =>
    rw [return_book_found s bid tsR tsU b hf] at h
    by_cases hav : b.available = true
    · rw [if_pos hav] at h; cases h
    · rw [if_neg hav] at h
      cases h
      exact ⟨b, rfl, by simpa using hav, rfl⟩

/-! ## List lemmas about `replaceFirst` -/

/-- A member of `replaceFirst bid f l` is an old member or the image under
`f` of an old member whose id is `bid`. -/
theorem mem_replaceFirst {b' : Book} {bid : Nat} {f : Book → Book} {l : List Book}
    (h : b' ∈ replaceFirst bid f l) :
    b' ∈ l ∨ ∃ b0, b0 ∈ l ∧ b0.id = bid ∧ b' = f b0 := by
  induction l with
  | nil => cases h
  | cons hd tl ih =>
    by_cases hid : hd.id = bid
    · rw [replaceFirst, if_pos hid] at h
      rcases List.mem_cons.mp h with h1 | h1
      · exact Or.inr ⟨hd, List.mem_cons_self _ _, hid, h1⟩
      · exact Or.inl (List.mem_cons_of_mem _ h1)
    · rw [replaceFirst, if_neg hid] at h
      rcases List.mem_cons.mp h with h1 | h1
      · exact Or.inl (h1 ▸ List.mem_cons_self _ _)
      · rcases ih h1 with h2 | ⟨b0, hb0, hbid, hb'⟩
        · exact Or.inl (List.mem_cons_of_mem _ h2)
        · exact Or.inr ⟨b0, List.mem_cons_of_mem _ hb0, hbid, hb'⟩

/-- Searching for `bid` after `replaceFirst bid f` finds the image of the
old first match, provided `f` preserves a matching id. -/
theorem find?_replaceFirst (bid : Nat) (f : Book → Book) (l : List Book)
    (hf : ∀ b, b.id = bid → (f b).id = bid) :
    (replaceFirst bid f l).find? (fun b => b.id = bid) =
      (l.find? (fun b => b.id = bid)).map f := by
  induction l with
  | nil => rfl
  | cons hd tl ih =>
    by_cases hid : hd.id = bid
    · rw [replaceFirst, if_pos hid]
      rw [List.find?_cons_of_pos _ (by simpa using hf hd hid),
          List.find?_cons_of_pos _ (by simpa using hid)]
      rfl
    · rw [replaceFirst, if_neg hid]
      rw [List.find?_cons_of_neg _ (by simpa using hid),
          List.find?_cons_of_neg _ (by simpa using hid)]
      exact ih

/-! ## Invariants of reachable stores -/

/-- The lending invariant: a book is unavailable exactly when it has a
borrower. -/
def LendInv (s : Store) : Prop :=
  ∀ b ∈ s.books, (b.available = false ↔ b.borrower ≠ "")

/-- Every stored id is below the counter. -/
def IdsBelow (s : Store) : Prop :=
  ∀ b ∈ s.books, b.id < s.next_id

/-- Each successful action preserves the lending invariant. -/
theorem lendInv_step {s s' : Store} (hs : Step s s') (hinv : LendInv s) :
    LendInv s' := by
  cases hs with
  | add h =>
    obtain ⟨-, -, -, hb, hs'⟩ := add_book_ok h
    subst hs'
    intro b' hb'
    rcases List.mem_append.mp hb' with h1 | h1
    · exact hinv b' h1
    · rw [List.mem_singleton.mp h1, hb]
      simp
  | update h =>
    obtain ⟨b, hf, hs'⟩ := update_book_ok h
    subst hs'
    intro b' hb'
    rcases mem_replaceFirst hb' with h1 | ⟨b0, hb0, hbid, rfl⟩
    · exact hinv b' h1
    · simpa using hinv b (List.mem_of_find?_eq_some hf)
  | del h =>
    obtain ⟨hs', -⟩ := delete_book_ok h
    subst hs'
    intro b' hb'
    exact hinv b' (List.mem_of_mem_filter hb')
  | borrow h =>
    obtain ⟨b, hf, hav, hname, hs'⟩ := borrow_book_ok h
    subst hs'
    intro b' hb'
    rcases mem_replaceFirst hb' with h1 | ⟨b0, hb0, hbid, rfl⟩
    · exact hinv b' h1
    · simpa using hname
  | ret h =>
    obtain ⟨b, hf, hav, hs'⟩ := return_book_ok h
    subst hs'
    intro b' hb'
    rcases mem_replaceFirst hb' with h1 | ⟨b0, hb0, hbid, rfl⟩
    · exact hinv b' h1
    · simp

/-- The lending invariant holds in every state reachable from `s`. -/
theorem lendInv_steps {s s' : Store} (h : Steps s s') (hinv : LendInv s) :
    LendInv s' := by
  induction h with
  | refl => exact hinv
  | tail h1 h2 ih => exact lendInv_step h2 ih

/-- The lending invariant holds in every reachable state. -/
theorem lendInv_reachable {s : Store} (h : Reachable s) : LendInv s :=
  lendInv_steps h (by intro b hb; cases hb)

/-- Each successful action keeps every stored id below the counter. -/
theorem idsBelow_step {s s' : Store} (hs : Step s s') (hinv : IdsBelow s) :
    IdsBelow s' := by
  cases hs with
  | add h =>
    obtain ⟨-, -, -, hb, hs'⟩ := add_book_ok h
    subst hs'
    intro b' hb'
    rcases List.mem_append.mp hb' with h1 | h1
    · exact Nat.lt_trans (hinv b' h1) (Nat.lt_succ_self _)
    · rw [List.mem_singleton.mp h1, hb]
      exact Nat.lt_succ_self _
  | update h =>
    obtain ⟨b, hf, hs'⟩ := update_book_ok h
    subst hs'
    intro b' hb'
    rcases mem_replaceFirst hb' with h1 | ⟨b0, hb0, hbid, rfl⟩
    · exact hinv b' h1
    · simpa using hinv b (List.mem_of_find?_eq_some hf)
  | del h =>
    obtain ⟨hs', -⟩ := delete_book_ok h
    subst hs'
    intro b' hb'
    exact hinv b' (List.mem_of_mem_filter hb')
  | borrow h =>
    obtain ⟨b, hf, hav, hname, hs'⟩ := borrow_book_ok h
    subst hs'
    intro b' hb'
    rcases mem_replaceFirst hb' with h1 | ⟨b0, hb0, hbid, rfl⟩
    · exact hinv b' h1
    · simpa using hinv b0 hb0
  | ret h =>
    obtain ⟨b, hf, hav, hs'⟩ := return_book_ok h
    subst hs'
    intro b' hb'
    rcases mem_replaceFirst hb' with h1 | ⟨b0, hb0, hbid, rfl⟩
    · exact hinv b' h1
    · simpa using hinv b0 hb0

/-- The counter never decreases across one successful action. -/
theorem nextId_mono_step {s s' : Store} (hs : Step s s') :
    s.next_id ≤ s'.next_id := by
  cases hs with
  | add h =>
    obtain ⟨-, -, -, -, hs'⟩ := add_book_ok h
    subst hs'
    exact Nat.le_succ _
  | update h =>
    obtain ⟨b, hf, hs'⟩ := update_book_ok h
    subst hs'
    exact Nat.le_refl _
  | del h =>
    obtain ⟨hs', -⟩ := delete_book_ok h
    subst hs'
    exact Nat.le_refl _
  | borrow h =>
    obtain ⟨b, hf, hav, hname, hs'⟩ := borrow_book_ok h
    subst hs'
    exact Nat.le_refl _
  | ret h =>
    obtain ⟨b, hf, hav, hs'⟩ := return_book_ok h
    subst hs'
    exact Nat.le_refl _

/-- The counter never decreases across any action sequence. -/
theorem nextId_mono_steps {s s' : Store} (h : Steps s s') :
    s.next_id ≤ s'.next_id := by
  induction h with
  | refl => exact Nat.le_refl _
  | tail h1 h2 ih => exact Nat.le_trans ih (nextId_mono_step h2)

/-- Every stored id is below the counter in every reachable state. -/
theorem idsBelow_reachable {s : Store} (h : Reachable s) : IdsBelow s := by
  have : IdsBelow freshStore := by intro b hb; cases hb
  revert this
  induction h with
  | refl => exact id
  | tail h1 h2 ih => exact fun h0 => idsBelow_step h2 (ih h0)

/-! ## Codec lemmas -/

/-- Decoding inverts encoding for one book record. -/
theorem decodeBook_encodeBook (b : Book) : decodeBook (encodeBook b) = some b := rfl

/-- Decoding inverts encoding for a list of book records. -/
theorem decodeBooks_map_encodeBook (l : List Book) :
    decodeBooks (l.map encodeBook) = some l := by
  induction l with
  | nil => rfl
  | cons b t ih => simp [List.map, decodeBooks, decodeBook_encodeBook, ih]

/-- Decoding inverts encoding for a whole store document. -/
theorem decodeStore_encodeStore (s : Store) : decodeStore (encodeStore s) = some s := by
  have hb := decodeBooks_map_encodeBook s.books
  simp [decodeStore, encodeStore, lookupField, hb, jNat]

/-! ## Substring lemmas -/

/-- `containsSub` decides Mathlib's contiguous-sublist relation. -/
theorem containsSub_correct (n h : List Char) :
    containsSub n h = true ↔ n <:+: h := by
  induction h with
  | nil => simp [containsSub, List.isEmpty_iff]
  | cons c rest ih =>
    simp [containsSub, List.infix_cons_iff, ih, List.isPrefixOf_iff_prefix,
      Bool.or_eq_true]

/-- `pyLower` sends only the empty string to the empty string. -/
theorem pyLower_eq_empty_iff (s : String) : pyLower s = "" ↔ s = "" := by
  cases s with
  | mk data =>
    constructor
    · intro h
      have h3 : data.map Char.toLower = [] := congrArg String.data h
      have h4 : data = [] := by simpa using h3
      rw [h4]
    · intro h
      rw [h]
      rfl

/-! ## Concrete example data -/

/-- "Dune" freshly created with id 1 (timestamps are opaque strings). -/
def bookDune : Book :=
  { id := 1, title := "Dune", author := "Herbert", year := "1965",
    available := true, borrower := "", borrowed_at := "", returned_at := "",
    created_at := "t1", updated_at := "t1" }

/-- The store after `Create("Dune", "Herbert", "1965")` on a fresh store. -/
def storeDune : Store := { books := [bookDune], next_id := 2 }

/-- `bookDune` as mutated by `Borrow(1, "Ana")`. -/
def bookDuneAna : Book :=
  { id := 1, title := "Dune", author := "Herbert", year := "1965",
    available := false, borrower := "Ana", borrowed_at := "t2", returned_at := "",
    created_at := "t1", updated_at := "t2" }

/-- The store after `Borrow(1, "Ana")` on `storeDune`. -/
def storeDuneAna : Store := { books := [bookDuneAna], next_id := 2 }

/-- A book whose year `"-5"` is accepted by `int()` at creation but
rejected by `isdigit()` on update. -/
def bookNegYear : Book :=
  { id := 1, title := "T", author := "A", year := "-5",
    available := true, borrower := "", borrowed_at := "", returned_at := "",
    created_at := "t1", updated_at := "t1" }

/-- The store holding just `bookNegYear`. -/
def storeNegYear : Store := { books := [bookNegYear], next_id := 2 }

/-- Creating "Dune" on a fresh store is one step. -/
theorem step_add_dune : Step freshStore storeDune :=
  Step.add (show add_book freshStore "Dune" "Herbert" "1965" "t1" "t1" =
    Except.ok (bookDune, storeDune) from rfl)

/-- `storeDune` is reachable. -/
theorem reachable_storeDune : Reachable storeDune :=
  Relation.ReflTransGen.single step_add_dune

/-- Borrowing "Dune" to Ana is one step. -/
theorem step_borrow_ana : Step storeDune storeDuneAna :=
  Step.borrow (show borrow_book storeDune 1 "Ana" "t2" "t2" =
    Except.ok storeDuneAna from rfl)

/-- `Borrow(1, "Ana")` as an action sequence from `storeDune`. -/
theorem steps_dune_ana : Steps storeDune storeDuneAna :=
  Relation.ReflTransGen.single step_borrow_ana

/-- `storeDuneAna` is reachable. -/
theorem reachable_storeDuneAna : Reachable storeDuneAna :=
  Relation.ReflTransGen.tail reachable_storeDune step_borrow_ana

/--`storeNegYear` is reachable: `int("-5")` succeeds, so creation accepts
the year `"-5"`. -/
theorem reachable_storeNegYear : Reachable storeNegYear :=
  Relation.ReflTransGen.single
    (Step.add (show add_book freshStore "T" "A" "-5" "t1" "t1" =
      Except.ok (bookNegYear, storeNegYear) from rfl))

/-! ## The claims -/

/-- C1: For every book in the store at every reachable state (starting
from a fresh store and applying any sequence of Create, Update, Delete,
Borrow, Return operations), `available = false` holds iff `borrower` is a
non-empty string. -/
theorem claim1_lending_invariant {s : Store} {b : Book}
    (h : Reachable s) (hb : b ∈ s.books) :
    b.available = false ↔ b.borrower ≠ "" :=
  lendInv_reachable h b hb

/-- C1 witness: instantiated at the reachable store where "Dune" is
borrowed by Ana. -/
theorem claim1_lending_invariant_witness :
    bookDuneAna.available = false ↔ bookDuneAna.borrower ≠ "" :=
  claim1_lending_invariant reachable_storeDuneAna (by decide)

/-- C2: From a reachable store `s0`, after any further actions reaching
`s`, creating a book with non-empty title and author and an `int`-accepted
year succeeds, yields `available = true` and id `s.next_id`, bumps the
counter, and the new id is strictly greater than the id of any book
previously assigned (any member of the earlier state `s0`). -/
theorem claim2_create_fresh_id {s0 s : Store} {b0 : Book} {t a y tsC tsU : String}
    (hreach : Reachable s0) (hsteps : Steps s0 s) (hb0 : b0 ∈ s0.books)
    (ht : t ≠ "") (ha : a ≠ "") (hy : pyIntValid y = true) :
    add_book s t a y tsC tsU =
      .ok ({ id := s.next_id, title := t, author := a, year := y,
             available := true, borrower := "", borrowed_at := "",
             returned_at := "", created_at := tsC, updated_at := tsU },
           { books := s.books ++
               [{ id := s.next_id, title := t, author := a, year := y,
                  available := true, borrower := "", borrowed_at := "",
                  returned_at := "", created_at := tsC, updated_at := tsU }],
             next_id := s.next_id + 1 }) ∧
    b0.id < s.next_id := by
  have hy0 : y ≠ "" := by
    intro h0
    rw [h0] at hy
    exact absurd hy (by decide)
  constructor
  · unfold add_book
    rw [if_neg (by simp [ht, ha, hy0]), if_neg (by simp [hy])]
  · exact Nat.lt_of_lt_of_le (idsBelow_reachable hreach b0 hb0)
      (nextId_mono_steps hsteps)

/-- C2 witness: creating "Emma" in the reachable store where "Dune" (id 1)
is borrowed assigns the fresh id 2 and leaves the book available. -/
theorem claim2_create_fresh_id_witness :
    add_book storeDuneAna "Emma" "Austen" "1815" "t3" "t3" =
      .ok ({ id := storeDuneAna.next_id, title := "Emma", author := "Austen",
             year := "1815", available := true, borrower := "", borrowed_at := "",
             returned_at := "", created_at := "t3", updated_at := "t3" },
           { books := storeDuneAna.books ++
               [{ id := storeDuneAna.next_id, title := "Emma", author := "Austen",
                  year := "1815", available := true, borrower := "", borrowed_at := "",
                  returned_at := "", created_at := "t3", updated_at := "t3" }],
             next_id := storeDuneAna.next_id + 1 }) ∧
    bookDune.id < storeDuneAna.next_id :=
  claim2_create_fresh_id reachable_storeDune steps_dune_ana (by decide)
    (by decide) (by decide) (by decide)

/-- C3: Create with an empty title, author, or year, or a year `int()`
rejects, fails with a ValidationError and leaves the store completely
unchanged (same books, same counter). -/
theorem claim3_create_invalid {s : Store} {t a y tsC tsU : String}
    (h : t = "" ∨ a = "" ∨ y = "" ∨ pyIntValid y = false) :
    add_book s t a y tsC tsU = .error .validationError ∧
    runAdd s (add_book s t a y tsC tsU) = s := by
  have herr : add_book s t a y tsC tsU = .error .validationError := by
    unfold add_book
    by_cases hc : t = "" ∨ a = "" ∨ y = ""
    · rw [if_pos hc]
    · rw [if_neg hc]
      have hy : pyIntValid y = false := by
        rcases h with h | h | h | h
        · exact absurd (Or.inl h) hc
        · exact absurd (Or.inr (Or.inl h)) hc
        · exact absurd (Or.inr (Or.inr h)) hc
        · exact h
      rw [if_pos hy]
  refine ⟨herr, ?_⟩
  rw [herr]
  rfl

/-- C3 witness: the spec scenario `Create("A", "B", "abc")` on a fresh
store fails validation and changes nothing. -/
theorem claim3_create_invalid_witness :
    add_book freshStore "A" "B" "abc" "t1" "t1" = .error .validationError ∧
    runAdd freshStore (add_book freshStore "A" "B" "abc" "t1" "t1") = freshStore :=
  claim3_create_invalid (Or.inr (Or.inr (Or.inr (by decide))))

/-- C4 counterexample: in the reachable store holding a book whose year is
`"-5"` (accepted by `int()` at creation), `Update(1, "", "New Author", "")`
does not set the author: the empty year input falls back to the stored
year `"-5"`, which `isdigit()` rejects, so the whole update fails with a
ValidationError and mutates nothing. -/
theorem claim4_counterexample :
    find_by_id storeNegYear 1 = some bookNegYear ∧
    Reachable storeNegYear ∧
    update_book storeNegYear 1 "" "New Author" "" "t2" = .error .validationError ∧
    runOp storeNegYear (update_book storeNegYear 1 "" "New Author" "" "t2") =
      storeNegYear :=
  ⟨rfl, reachable_storeNegYear, rfl, rfl⟩

/-- C4 (amended): For every store containing a book with the given id
whose current year is a digit-only string, `Update(id, newTitle = "",
newAuthor = "New Author", newYear = "")` keeps title and year, sets the
author to "New Author" and sets `updated_at` to the operation timestamp. -/
theorem claim4_update_empty_keeps {s : Store} {bid : Nat} {b : Book} {ts : String}
    (hf : find_by_id s bid = some b) (hy : pyIsDigit b.year = true) :
    update_book s bid "" "New Author" "" ts =
      .ok { s with
        books := replaceFirst bid
            (fun _ => { b with author := "New Author", updated_at := ts })
            s.books } ∧
    find_by_id { s with
        books := replaceFirst bid
            (fun _ => { b with author := "New Author", updated_at := ts })
            s.books } bid =
      some { b with author := "New Author", updated_at := ts } := by
  have hid : ∀ b1 : Book, b1.id = bid →
      ((fun (_ : Book) => { b with author := "New Author", updated_at := ts }) b1).id =
        bid := by
    intro b1 h1
    have hb : b.id = bid := by
      unfold find_by_id at hf
      have h2 := List.find?_some (p := fun x : Book => decide (x.id = bid)) hf
      simpa using h2
    exact hb
  have heq := update_book_found s bid "" "New Author" "" ts b hf
  rw [if_pos rfl, if_pos rfl, if_neg (by decide : ¬("New Author" : String) = "")] at heq
  rw [if_neg (by simp [hy])] at heq
  constructor
  · exact heq
  · unfold find_by_id
    have := find?_replaceFirst bid
      (fun _ => { b with author := "New Author", updated_at := ts }) s.books hid
    rw [show ({ s with
          books := replaceFirst bid
              (fun _ => { b with author := "New Author", updated_at := ts })
              s.books } : Store).books =
        replaceFirst bid
          (fun _ => { b with author := "New Author", updated_at := ts })
          s.books from rfl]
    rw [this]
    unfold find_by_id at hf
    rw [hf]
    rfl

/-- C4 witness: updating "Dune" (year "1965", digit-only) with an empty
title and year keeps both and rewrites the author. -/
theorem claim4_update_empty_keeps_witness :
    update_book storeDune 1 "" "New Author" "" "t9" =
      .ok { storeDune with
        books := replaceFirst 1
            (fun _ => { bookDune with author := "New Author", updated_at := "t9" })
            storeDune.books } ∧
    find_by_id { storeDune with
        books := replaceFirst 1
            (fun _ => { bookDune with author := "New Author", updated_at := "t9" })
            storeDune.books } 1 =
      some { bookDune with author := "New Author", updated_at := "t9" } :=
  @claim4_update_empty_keeps storeDune 1 bookDune "t9" rfl (by decide)

/-- C5: Update on a present id with a supplied non-empty, non-digit year
fails with a ValidationError and performs no mutation at all. -/
theorem claim5_update_bad_year {s : Store} {bid : Nat} {b : Book} {nt na ny ts : String}
    (hf : find_by_id s bid = some b) (hny : ny ≠ "") (hdig : pyIsDigit ny = false) :
    update_book s bid nt na ny ts = .error .validationError ∧
    runOp s (update_book s bid nt na ny ts) = s := by
  have heq := update_book_found s bid nt na ny ts b hf
  rw [if_neg hny] at heq
  rw [if_pos ⟨hny, hdig⟩] at heq
  refine ⟨heq, ?_⟩
  rw [heq]
  rfl

/-- C5 witness: updating "Dune" with year "12a" fails and leaves the store
as it was. -/
theorem claim5_update_bad_year_witness :
    update_book storeDune 1 "X" "Y" "12a" "t9" = .error .validationError ∧
    runOp storeDune (update_book storeDune 1 "X" "Y" "12a" "t9") = storeDune :=
  @claim5_update_bad_year storeDune 1 bookDune "X" "Y" "12a" "t9" rfl
    (by decide) (by decide)

/-- C6 counterexample: a backing document that exists and parses to an
object with no fields at all is returned by `load_db` as-is, with no
failure of any kind — the required top-level fields are not checked (the
document does not even decode to a store) — and an unparsable document
produces the uncaught `json.load` exception, not a typed recoverable
outcome. -/
theorem claim6_counterexample :
    load_db (.parsed (Json.obj [])) = (.ok (Json.obj []), .parsed (Json.obj [])) ∧
    decodeStore (Json.obj []) = none ∧
    load_db .invalid = (.exception, .invalid) :=
  ⟨rfl, rfl, rfl⟩

/-- C6 (amended): when the backing document does not exist, Load returns
the fresh store `{books = [], next_id = 1}` without touching the file;
when it exists but is not valid structured data, Load raises the uncaught
parse exception (a process-terminating fault — there is no typed
CorruptStore outcome); and when it parses, the content is returned as-is
with no validation of required top-level fields. -/
theorem claim6_load_behavior :
    load_db .absent = (.ok (encodeStore freshStore), .absent) ∧
    decodeStore (encodeStore freshStore) = some freshStore ∧
    load_db .invalid = (.exception, .invalid) ∧
    ∀ j : Json, load_db (.parsed j) = (.ok j, .parsed j) :=
  ⟨rfl, rfl, rfl, fun _ => rfl⟩

/-- C7: Save followed by Load reproduces an equal store: the written
document is read back unchanged, and it decodes to the very store that was
saved (same books in the same order, same counter). -/
theorem claim7_save_load_roundtrip (s : Store) :
    load_db (save_db (encodeStore s)) = (.ok (encodeStore s), save_db (encodeStore s)) ∧
    decodeStore (encodeStore s) = some s :=
  ⟨rfl, decodeStore_encodeStore s⟩

/-- `search_books` with the keyword lowercasing and empty test written
out. -/
theorem search_books_eq (s : Store) (keyword : String) :
    search_books s keyword =
      if pyLower keyword = "" then .error .validationError
      else .ok (s.books.filter (fun b => matchesKeyword (pyLower keyword) b)) :=
  rfl

/-- C8: Search with an empty keyword fails with a ValidationError; any
successful search had a non-empty keyword and returns a sublist of the
collection (natural order, no sort) holding exactly the books whose
lowercased title or author contains the lowercased keyword as a
contiguous substring. -/
theorem claim8_search {s : Store} {q : String} {l : List Book} {b : Book} :
    search_books s "" = .error .validationError ∧
    (search_books s q = .ok l →
      q ≠ "" ∧ l.Sublist s.books ∧
        (b ∈ l ↔ b ∈ s.books ∧
          ((pyLower q).data <:+: (pyLower b.title).data ∨
           (pyLower q).data <:+: (pyLower b.author).data))) := by
  constructor
  · rfl
  · intro h
    rw [search_books_eq] at h
    by_cases hq : pyLower q = ""
    · rw [if_pos hq] at h
      cases h
    · rw [if_neg hq] at h
      cases h
      refine ⟨fun h0 => hq (by rw [h0]; rfl), List.filter_sublist _, ?_⟩
      constructor
      · intro hb
        have hm := List.mem_filter.mp hb
        refine ⟨hm.1, ?_⟩
        have h1 := hm.2
        unfold matchesKeyword at h1
        rcases Bool.or_eq_true_iff.mp h1 with h2 | h2
        · exact Or.inl ((containsSub_correct _ _).mp h2)
        · exact Or.inr ((containsSub_correct _ _).mp h2)
      · rintro ⟨hmem, hinf⟩
        refine List.mem_filter.mpr ⟨hmem, ?_⟩
        unfold matchesKeyword
        rcases hinf with h2 | h2
        · exact Bool.or_eq_true_iff.mpr (Or.inl ((containsSub_correct _ _).mpr h2))
        · exact Bool.or_eq_true_iff.mpr (Or.inr ((containsSub_correct _ _).mpr h2))

/-- C8 witness: on the store holding "Dune" by "Herbert", the keyword
"dun" matches the title case-insensitively and exactly that book is
returned; the empty keyword is rejected. -/
theorem claim8_search_witness :
    search_books storeDune "" = .error .validationError ∧
    ("dun" ≠ "" ∧ [bookDune].Sublist storeDune.books ∧
      (bookDune ∈ [bookDune] ↔ bookDune ∈ storeDune.books ∧
        ((pyLower "dun").data <:+: (pyLower bookDune.title).data ∨
         (pyLower "dun").data <:+: (pyLower bookDune.author).data))) :=
  ⟨(@claim8_search storeDune "dun" [bookDune] bookDune).1,
   (@claim8_search storeDune "dun" [bookDune] bookDune).2 rfl⟩


/-- The store a successful action yields, `none` on failure. -/
def okStore : Except Err Store → Option Store
  | .ok s => some s
  | .error _ => none

/-- Store-level version of `find?_replaceFirst`, with the collection
explicit. -/
theorem find_by_id_replaceFirst (l : List Book) (bid : Nat) (f : Book → Book) (n : Nat)
    (hf : ∀ b, b.id = bid → (f b).id = bid) :
    find_by_id { books := replaceFirst bid f l, next_id := n } bid =
      (find_by_id { books := l, next_id := n } bid).map f :=
  find?_replaceFirst bid f l hf

/-- `borrow_book` when the id is absent. -/
theorem borrow_book_notFound (s : Store) (bid : Nat) (n tB tU : String)
    (hf : find_by_id s bid = none) :
    borrow_book s bid n tB tU = .error .notFound := by
  unfold borrow_book
  rw [hf]

/-- C9: On a store whose book `bid` is available, Borrow with a non-empty
name followed by Return both succeed, and the book ends available with an
empty borrower while `id`, `title`, `author`, `year` (and `created_at`)
are exactly as before the Borrow. -/
theorem claim9_borrow_return {s : Store} {bid : Nat} {b : Book} {n tB tU tR tV : String}
    (hf : find_by_id s bid = some b) (hav : b.available = true) (hn : n ≠ "") :
    ((okStore (borrow_book s bid n tB tU)).bind
        (fun s1 => (okStore (return_book s1 bid tR tV)).bind
          (fun s2 => find_by_id s2 bid))) =
      some { b with
        available := true
        borrower := ""
        borrowed_at := tB
        returned_at := tR
        updated_at := tV } := by
  have h1 : borrow_book s bid n tB tU =
      .ok { books := replaceFirst bid (fun b0 => { b0 with available := false, borrower := n, borrowed_at := tB, returned_at := "", updated_at := tU }) s.books, next_id := s.next_id } := by
    rw [borrow_book_found s bid n tB tU b hf]
    rw [if_neg (by simp [hav]), if_neg hn]
  have hfind1 : find_by_id { books := replaceFirst bid (fun b0 => { b0 with available := false, borrower := n, borrowed_at := tB, returned_at := "", updated_at := tU }) s.books, next_id := s.next_id } bid =
      some { b with available := false, borrower := n, borrowed_at := tB, returned_at := "", updated_at := tU } := by
    rw [find_by_id_replaceFirst s.books bid
        (fun b0 => { b0 with available := false, borrower := n, borrowed_at := tB, returned_at := "", updated_at := tU })
        s.next_id (fun b0 h0 => h0)]
    rw [show ({ books := s.books, next_id := s.next_id } : Store) = s from rfl, hf]
    rfl
  have h2 : return_book { books := replaceFirst bid (fun b0 => { b0 with available := false, borrower := n, borrowed_at := tB, returned_at := "", updated_at := tU }) s.books, next_id := s.next_id } bid tR tV =
      .ok { books := replaceFirst bid (fun b0 => { b0 with available := true, returned_at := tR, borrower := "", updated_at := tV }) (replaceFirst bid (fun b0 => { b0 with available := false, borrower := n, borrowed_at := tB, returned_at := "", updated_at := tU }) s.books), next_id := s.next_id } := by
    rw [return_book_found _ bid tR tV _ hfind1]
    rw [if_neg (by simp)]
  have hfind2 : find_by_id { books := replaceFirst bid (fun b0 => { b0 with available := true, returned_at := tR, borrower := "", updated_at := tV }) (replaceFirst bid (fun b0 => { b0 with available := false, borrower := n, borrowed_at := tB, returned_at := "", updated_at := tU }) s.books), next_id := s.next_id } bid =
      some { b with
        available := true
        borrower := ""
        borrowed_at := tB
        returned_at := tR
        updated_at := tV } := by
    rw [find_by_id_replaceFirst
        (replaceFirst bid (fun b0 => { b0 with available := false, borrower := n, borrowed_at := tB, returned_at := "", updated_at := tU }) s.books)
        bid (fun b0 => { b0 with available := true, returned_at := tR, borrower := "", updated_at := tV })
        s.next_id (fun b0 h0 => h0)]
    rw [hfind1]
    rfl
  rw [h1]
  simp only [okStore, Option.bind]
  rw [h2]
  simp only [okStore, Option.bind]
  rw [hfind2]

/-- C9 witness: borrowing "Dune" to Ana and returning it restores
availability and clears the borrower while keeping id, title, author and
year. -/
theorem claim9_borrow_return_witness :
    ((okStore (borrow_book storeDune 1 "Ana" "t2" "t2")).bind
        (fun s1 => (okStore (return_book s1 1 "t3" "t3")).bind
          (fun s2 => find_by_id s2 1))) =
      some { bookDune with
        available := true
        borrower := ""
        borrowed_at := "t2"
        returned_at := "t3"
        updated_at := "t3" } :=
  @claim9_borrow_return storeDune 1 bookDune "Ana" "t2" "t2" "t3" "t3" rfl rfl
    (by decide)

/-- C10: Borrow's checks run in the order NotFound, AlreadyBorrowed, empty
name: on a present, already-borrowed book it fails with AlreadyBorrowed
carrying the current borrower regardless of the supplied name, and a
ValidationError can only arise when the name is empty and the book exists
and is available. -/
theorem claim10_borrow_check_order {s : Store} {bid : Nat} {b : Book} {n tB tU : String} :
    (find_by_id s bid = some b → b.available = false →
      borrow_book s bid n tB tU = .error (.alreadyBorrowed b.borrower)) ∧
    (borrow_book s bid n tB tU = .error .validationError →
      n = "" ∧ (find_by_id s bid).map Book.available = some true) := by
  constructor
  · intro hf hav
    rw [borrow_book_found s bid n tB tU b hf, if_pos hav]
  · intro h
    cases hfind : find_by_id s bid with
    | none =>
      rw [borrow_book_notFound s bid n tB tU hfind] at h
      simp at h
    | some b2 =>
      rw [borrow_book_found s bid n tB tU b2 hfind] at h
      by_cases hav : b2.available = false
      · rw [if_pos hav] at h
        simp at h
      · rw [if_neg hav] at h
        by_cases hn : n = ""
        · rw [if_pos hn] at h
          refine ⟨hn, ?_⟩
          have hb2 : b2.available = true := by simpa using hav
          simp [hb2]
        · rw [if_neg hn] at h
          simp at h

/-- C10 witness: on the store where Ana holds "Dune", borrowing as Ben
fails with AlreadyBorrowed "Ana"; and on the store where "Dune" is
available, an empty name yields the ValidationError outcome with the book
present and available. -/
theorem claim10_borrow_check_order_witness :
    borrow_book storeDuneAna 1 "Ben" "t4" "t4" =
      .error (.alreadyBorrowed bookDuneAna.borrower) ∧
    ("" = "" ∧ (find_by_id storeDune 1).map Book.available = some true) :=
  ⟨(@claim10_borrow_check_order storeDuneAna 1 bookDuneAna "Ben" "t4" "t4").1 rfl rfl,
   (@claim10_borrow_check_order storeDune 1 bookDune "" "t4" "t4").2 rfl⟩
